import Mathlib

/-!
Verification of the Optioneering repository's reconciliation-and-scoring
pipeline (Optioneer.py, DataIngestor.py, DataINgestor.py) against its
natural-language specification.

The embedding models Python dictionary values flowing through the pipeline
(`PyVal`), IEEE-style float edge values produced by the pandas indicator
math (`EFloat`), the scoring engine `calculate_scores` (Optioneer.py lines
270-309), the ranked-provider resolver `get_fundamental_data` (lines
143-170), the technical indicators (`calculate_rsi` lines 208-216,
`calculate_performance` lines 218-223, `calculate_technical_indicators`
lines 225-244), the recommendation mapper `get_option_recommendation`
(lines 311-317) and the run-button analysis flow (lines 340-359).
Machine floats are idealised as rationals; the special values NaN and
±infinity that the claims depend on are modelled explicitly.
-/

namespace Optioneering

/-- A Python value as it can appear in the fundamentals / technicals
dictionaries: a finite float (idealised as a rational), positive or
negative infinity, NaN, the value `None`, or a string (the code stores
the literal string "N/A" as its unavailable sentinel). An absent
dictionary key read through `.get(k)` is modelled as `PyVal.none`. -/
inductive PyVal where
  | num (q : ℚ)
  | inf
  | ninf
  | nan
  | none
  | str (s : String)
deriving DecidableEq

/-- Optioneer.py line 98: `value is None or (isinstance(value, float) and
np.isnan(value))`. Strings and finite/infinite numbers are not missing. -/
def is_missing : PyVal → Bool
  | PyVal.none => true
  | PyVal.nan => true
  | _ => false

/-- An exception escaping the scoring engine. Comparing `None` or a string
against a number raises `TypeError` in Python 3. -/
inductive ScoreErr where
  | typeError
deriving DecidableEq

/-- Python `v <= t` for a dict value v and a numeric threshold t.
NaN compares false; ±inf compare by sign; None and strings raise. -/
def pyLE (v : PyVal) (t : ℚ) : Except ScoreErr Bool :=
  match v with
  | PyVal.num q => Except.ok (decide (q ≤ t))
  | PyVal.inf => Except.ok false
  | PyVal.ninf => Except.ok true
  | PyVal.nan => Except.ok false
  | PyVal.none => Except.error ScoreErr.typeError
  | PyVal.str _ => Except.error ScoreErr.typeError

/-- Python `v >= t`. -/
def pyGE (v : PyVal) (t : ℚ) : Except ScoreErr Bool :=
  match v with
  | PyVal.num q => Except.ok (decide (t ≤ q))
  | PyVal.inf => Except.ok true
  | PyVal.ninf => Except.ok false
  | PyVal.nan => Except.ok false
  | PyVal.none => Except.error ScoreErr.typeError
  | PyVal.str _ => Except.error ScoreErr.typeError

/-- Python `v > t`. -/
def pyGT (v : PyVal) (t : ℚ) : Except ScoreErr Bool :=
  match v with
  | PyVal.num q => Except.ok (decide (t < q))
  | PyVal.inf => Except.ok true
  | PyVal.ninf => Except.ok false
  | PyVal.nan => Except.ok false
  | PyVal.none => Except.error ScoreErr.typeError
  | PyVal.str _ => Except.error ScoreErr.typeError

/-- Python `v < t`. -/
def pyLT (v : PyVal) (t : ℚ) : Except ScoreErr Bool :=
  match v with
  | PyVal.num q => Except.ok (decide (q < t))
  | PyVal.inf => Except.ok false
  | PyVal.ninf => Except.ok true
  | PyVal.nan => Except.ok false
  | PyVal.none => Except.error ScoreErr.typeError
  | PyVal.str _ => Except.error ScoreErr.typeError

/-- Python `t <= v` with the number on the left. -/
def numLE (t : ℚ) (v : PyVal) : Except ScoreErr Bool :=
  match v with
  | PyVal.num q => Except.ok (decide (t ≤ q))
  | PyVal.inf => Except.ok true
  | PyVal.ninf => Except.ok false
  | PyVal.nan => Except.ok false
  | PyVal.none => Except.error ScoreErr.typeError
  | PyVal.str _ => Except.error ScoreErr.typeError

/-- Python `t < v` with the number on the left. -/
def numLT (t : ℚ) (v : PyVal) : Except ScoreErr Bool :=
  match v with
  | PyVal.num q => Except.ok (decide (t < q))
  | PyVal.inf => Except.ok true
  | PyVal.ninf => Except.ok false
  | PyVal.nan => Except.ok false
  | PyVal.none => Except.error ScoreErr.typeError
  | PyVal.str _ => Except.error ScoreErr.typeError

/-- The fundamentals dictionary as read by `calculate_scores` through
`fund.get(key)`: an absent key is `PyVal.none`. -/
structure FundRecord where
  debtToEquity : PyVal
  currentRatio : PyVal
  freeCashFlow : PyVal
  revenueGrowth : PyVal
  roe : PyVal
deriving DecidableEq

/-- The technicals dictionary. `Option.none` in a field means the key is
absent from the dict (as when `calculate_technical_indicators` returns `{}`
for an empty price history); `calculate_scores` then reads it through
`tech.get(key, 0)`. -/
structure TechRecord where
  currentPrice : Option ℚ
  rsi : Option PyVal
  macdHist : Option PyVal
  perf7 : Option PyVal
  perf30 : Option PyVal
  perf60 : Option PyVal
deriving DecidableEq

/-- The sidebar threshold configuration (Optioneer.py lines 328-335). -/
structure Thresholds where
  debtToEquity : ℚ
  currentRatio : ℚ
  revenueGrowth : ℚ
  roe : ℚ
  rsiLow : ℚ
  rsiHigh : ℚ
deriving DecidableEq

/-- Python `tech.get(key, 0)`. -/
def techGet (v : Option PyVal) : PyVal := v.getD (PyVal.num 0)

/-- Sequencing of two point awards: an exception in the earlier statement
propagates before the later one runs. -/
def exAdd (a b : Except ScoreErr ℕ) : Except ScoreErr ℕ :=
  match a with
  | Except.error e => Except.error e
  | Except.ok x =>
    match b with
    | Except.error e => Except.error e
    | Except.ok y => Except.ok (x + y)

/-- Optioneer.py lines 272-275: Debt-to-Equity criterion. -/
def de_points (fund : FundRecord) (th : Thresholds) : Except ScoreErr ℕ :=
  if is_missing fund.debtToEquity then Except.ok 0
  else
    match pyLE fund.debtToEquity th.debtToEquity with
    | Except.error e => Except.error e
    | Except.ok true => Except.ok 10
    | Except.ok false =>
      match pyLE fund.debtToEquity 1 with
      | Except.error e => Except.error e
      | Except.ok true => Except.ok 5
      | Except.ok false => Except.ok 0

/-- Optioneer.py lines 276-279: Current Ratio criterion. -/
def cr_points (fund : FundRecord) (th : Thresholds) : Except ScoreErr ℕ :=
  if is_missing fund.currentRatio then Except.ok 0
  else
    match pyGE fund.currentRatio th.currentRatio with
    | Except.error e => Except.error e
    | Except.ok true => Except.ok 10
    | Except.ok false =>
      match pyGE fund.currentRatio 1 with
      | Except.error e => Except.error e
      | Except.ok true => Except.ok 5
      | Except.ok false => Except.ok 0

/-- Optioneer.py lines 280-281: Free Cash Flow criterion (no half award). -/
def fcf_points (fund : FundRecord) : Except ScoreErr ℕ :=
  if is_missing fund.freeCashFlow then Except.ok 0
  else
    match pyGT fund.freeCashFlow 0 with
    | Except.error e => Except.error e
    | Except.ok true => Except.ok 10
    | Except.ok false => Except.ok 0

/-- Optioneer.py lines 282-285: Revenue Growth criterion. -/
def rg_points (fund : FundRecord) (th : Thresholds) : Except ScoreErr ℕ :=
  if is_missing fund.revenueGrowth then Except.ok 0
  else
    match pyGE fund.revenueGrowth th.revenueGrowth with
    | Except.error e => Except.error e
    | Except.ok true => Except.ok 10
    | Except.ok false =>
      match pyGE fund.revenueGrowth 5 with
      | Except.error e => Except.error e
      | Except.ok true => Except.ok 5
      | Except.ok false => Except.ok 0

/-- Optioneer.py lines 286-289: Return on Equity criterion. -/
def roe_points (fund : FundRecord) (th : Thresholds) : Except ScoreErr ℕ :=
  if is_missing fund.roe then Except.ok 0
  else
    match pyGE fund.roe th.roe with
    | Except.error e => Except.error e
    | Except.ok true => Except.ok 10
    | Except.ok false =>
      match pyGE fund.roe 10 with
      | Except.error e => Except.error e
      | Except.ok true => Except.ok 5
      | Except.ok false => Except.ok 0

/-- Raw fundamental point total, statements sequenced as in the source. -/
def fund_points (fund : FundRecord) (th : Thresholds) : Except ScoreErr ℕ :=
  exAdd (exAdd (exAdd (exAdd (de_points fund th) (cr_points fund th))
    (fcf_points fund)) (rg_points fund th)) (roe_points fund th)

/-- Optioneer.py line 290: `fund_score = (fund_score / 50) * 10 * 0.6`. -/
def fund_score (fund : FundRecord) (th : Thresholds) : Except ScoreErr ℚ :=
  match fund_points fund th with
  | Except.error e => Except.error e
  | Except.ok p => Except.ok (((p : ℚ) / 50) * 10 * (6 / 10))

/-- Second clause of the half-band test, `60 < rsi <= 70`. -/
def rsi_half2 (rsi : PyVal) : Except ScoreErr ℕ :=
  match numLT 60 rsi with
  | Except.error e => Except.error e
  | Except.ok false => Except.ok 0
  | Except.ok true =>
    match pyLE rsi 70 with
    | Except.error e => Except.error e
    | Except.ok true => Except.ok 5
    | Except.ok false => Except.ok 0

/-- Optioneer.py line 296: `30 <= rsi < 40 or 60 < rsi <= 70`, with
Python chained-comparison and `or` short-circuiting. -/
def rsi_half (rsi : PyVal) : Except ScoreErr ℕ :=
  match numLE 30 rsi with
  | Except.error e => Except.error e
  | Except.ok false => rsi_half2 rsi
  | Except.ok true =>
    match pyLT rsi 40 with
    | Except.error e => Except.error e
    | Except.ok true => Except.ok 5
    | Except.ok false => rsi_half2 rsi

/-- Optioneer.py lines 293-297: RSI band criterion on
`rsi = tech.get("RSI", 0)`. -/
def rsi_points (tech : TechRecord) (th : Thresholds) : Except ScoreErr ℕ :=
  match numLE th.rsiLow (techGet tech.rsi) with
  | Except.error e => Except.error e
  | Except.ok false => rsi_half (techGet tech.rsi)
  | Except.ok true =>
    match pyLE (techGet tech.rsi) th.rsiHigh with
    | Except.error e => Except.error e
    | Except.ok true => Except.ok 10
    | Except.ok false => rsi_half (techGet tech.rsi)

/-- Optioneer.py lines 298-299: `tech.get("MACD Histogram", 0) > 0`. -/
def macd_points (tech : TechRecord) : Except ScoreErr ℕ :=
  match pyGT (techGet tech.macdHist) 0 with
  | Except.error e => Except.error e
  | Except.ok true => Except.ok 10
  | Except.ok false => Except.ok 0

/-- Optioneer.py lines 300-305: one performance window,
`value = tech.get(perf, 0)`; full pass `> 2`, half pass `-2 <= value <= 2`. -/
def perf_points (v : Option PyVal) : Except ScoreErr ℕ :=
  match pyGT (techGet v) 2 with
  | Except.error e => Except.error e
  | Except.ok true => Except.ok 10
  | Except.ok false =>
    match numLE (-2) (techGet v) with
    | Except.error e => Except.error e
    | Except.ok false => Except.ok 0
    | Except.ok true =>
      match pyLE (techGet v) 2 with
      | Except.error e => Except.error e
      | Except.ok true => Except.ok 5
      | Except.ok false => Except.ok 0

/-- Raw technical point total. -/
def tech_points (tech : TechRecord) (th : Thresholds) : Except ScoreErr ℕ :=
  exAdd (exAdd (exAdd (exAdd (rsi_points tech th) (macd_points tech))
    (perf_points tech.perf7)) (perf_points tech.perf30)) (perf_points tech.perf60)

/-- Optioneer.py line 306: `tech_score = (tech_score / 50) * 10 * 0.4`. -/
def tech_score (tech : TechRecord) (th : Thresholds) : Except ScoreErr ℚ :=
  match tech_points tech th with
  | Except.error e => Except.error e
  | Except.ok p => Except.ok (((p : ℚ) / 50) * 10 * (4 / 10))

/-- Optioneer.py lines 270-309: the scoring engine, returning
(fund subscore, tech subscore, overall). -/
def calculate_scores (fund : FundRecord) (tech : TechRecord) (th : Thresholds) :
    Except ScoreErr (ℚ × ℚ × ℚ) :=
  match fund_score fund th with
  | Except.error e => Except.error e
  | Except.ok f =>
    match tech_score tech th with
    | Except.error e => Except.error e
    | Except.ok t => Except.ok (f, t, f + t)

/-- Optioneer.py lines 311-317 output record. -/
structure Recommendation where
  expiration : ℕ
  delta : ℕ
  strike : ℚ
deriving DecidableEq

/-- Optioneer.py lines 311-317: the recommendation mapper. -/
def get_option_recommendation (score : ℚ) (current_price : ℚ) : Recommendation :=
  if 8 ≤ score then ⟨60, 50, current_price⟩
  else if 6 ≤ score then ⟨45, 35, current_price * (97 / 100)⟩
  else ⟨30, 20, current_price * (9 / 10)⟩

/-- An IEEE-style float value produced by the pandas indicator math:
finite (idealised as a rational), +infinity, -infinity, or NaN. -/
inductive EFloat where
  | rat (q : ℚ)
  | inf
  | ninf
  | nan
deriving DecidableEq

/-- Float negation. -/
def eneg : EFloat → EFloat
  | EFloat.rat q => EFloat.rat (-q)
  | EFloat.inf => EFloat.ninf
  | EFloat.ninf => EFloat.inf
  | EFloat.nan => EFloat.nan

/-- Float addition (IEEE semantics on the special values). -/
def eadd : EFloat → EFloat → EFloat
  | EFloat.nan, _ => EFloat.nan
  | _, EFloat.nan => EFloat.nan
  | EFloat.rat a, EFloat.rat b => EFloat.rat (a + b)
  | EFloat.rat _, EFloat.inf => EFloat.inf
  | EFloat.rat _, EFloat.ninf => EFloat.ninf
  | EFloat.inf, EFloat.rat _ => EFloat.inf
  | EFloat.ninf, EFloat.rat _ => EFloat.ninf
  | EFloat.inf, EFloat.inf => EFloat.inf
  | EFloat.ninf, EFloat.ninf => EFloat.ninf
  | EFloat.inf, EFloat.ninf => EFloat.nan
  | EFloat.ninf, EFloat.inf => EFloat.nan

/-- Float subtraction. -/
def esub (a b : EFloat) : EFloat := eadd a (eneg b)

/-- Float multiplication (IEEE semantics: 0 times infinity is NaN). -/
def emul : EFloat → EFloat → EFloat
  | EFloat.nan, _ => EFloat.nan
  | _, EFloat.nan => EFloat.nan
  | EFloat.rat a, EFloat.rat b => EFloat.rat (a * b)
  | EFloat.rat a, EFloat.inf =>
    if 0 < a then EFloat.inf else if a < 0 then EFloat.ninf else EFloat.nan
  | EFloat.rat a, EFloat.ninf =>
    if 0 < a then EFloat.ninf else if a < 0 then EFloat.inf else EFloat.nan
  | EFloat.inf, EFloat.rat b =>
    if 0 < b then EFloat.inf else if b < 0 then EFloat.ninf else EFloat.nan
  | EFloat.ninf, EFloat.rat b =>
    if 0 < b then EFloat.ninf else if b < 0 then EFloat.inf else EFloat.nan
  | EFloat.inf, EFloat.inf => EFloat.inf
  | EFloat.inf, EFloat.ninf => EFloat.ninf
  | EFloat.ninf, EFloat.inf => EFloat.ninf
  | EFloat.ninf, EFloat.ninf => EFloat.inf

/-- Float division (IEEE semantics: finite over zero gives a signed
infinity or NaN, finite over infinity gives zero; numpy emits these
values with a warning rather than raising). -/
def ediv : EFloat → EFloat → EFloat
  | EFloat.nan, _ => EFloat.nan
  | _, EFloat.nan => EFloat.nan
  | EFloat.rat a, EFloat.rat b =>
    if b = 0 then
      if 0 < a then EFloat.inf else if a < 0 then EFloat.ninf else EFloat.nan
    else EFloat.rat (a / b)
  | EFloat.rat _, EFloat.inf => EFloat.rat 0
  | EFloat.rat _, EFloat.ninf => EFloat.rat 0
  | EFloat.inf, EFloat.rat b => if 0 ≤ b then EFloat.inf else EFloat.ninf
  | EFloat.ninf, EFloat.rat b => if 0 ≤ b then EFloat.ninf else EFloat.inf
  | EFloat.inf, EFloat.inf => EFloat.nan
  | EFloat.inf, EFloat.ninf => EFloat.nan
  | EFloat.ninf, EFloat.inf => EFloat.nan
  | EFloat.ninf, EFloat.ninf => EFloat.nan

/-- Embed a float edge value into the dictionary value type. -/
def pyvalOfE : EFloat → PyVal
  | EFloat.rat q => PyVal.num q
  | EFloat.inf => PyVal.inf
  | EFloat.ninf => PyVal.ninf
  | EFloat.nan => PyVal.nan

/-- Pandas series.diff() without its leading NaN: the list of consecutive
close-to-close differences. -/
def diffList (closes : List ℚ) : List ℚ :=
  List.zipWith (fun a b => a - b) closes.tail closes

/-- The trailing 14 elements of a list (all of it when shorter). -/
def last14 (xs : List ℚ) : List ℚ := xs.drop (xs.length - 14)

/-- Optioneer.py lines 208-216 `calculate_rsi` (period 14), evaluated at
`iloc[-1]`. With fewer than 15 closes the trailing rolling window of the
diff series holds under 14 observations (`min_periods=period`), so the
last average is NaN and so is the RSI. Otherwise the last averages are
the plain means of the trailing 14 gains and losses, and
`rs = avg_gain / avg_loss`, `rsi = 100 - 100 / (1 + rs)` follow pandas
float semantics, captured by `EFloat`. -/
def calculate_rsi (closes : List ℚ) : EFloat :=
  if closes.length < 15 then EFloat.nan
  else
    let ds := last14 (diffList closes)
    let avg_gain := (ds.map (fun d => max d 0)).sum / 14
    let avg_loss := (ds.map (fun d => max (-d) 0)).sum / 14
    let rs := ediv (EFloat.rat avg_gain) (EFloat.rat avg_loss)
    esub (EFloat.rat 100) (ediv (EFloat.rat 100) (eadd (EFloat.rat 1) rs))

/-- One performance window of Optioneer.py lines 218-223:
`((latest_close / hist['Close'].iloc[-min(n, len(hist))]) - 1) * 100`.
`iloc[-k]` on a series of length L is position L - k; the out-of-range
case cannot occur for a non-empty series (proved in the C8 theorem), so
the positional read is rendered with `getD`. -/
def perfN (closes : List ℚ) (n : ℕ) : EFloat :=
  let latest := closes.getD (closes.length - 1) 0
  let ref := closes.getD (closes.length - min n closes.length) 0
  emul (esub (ediv (EFloat.rat latest) (EFloat.rat ref)) (EFloat.rat 1)) (EFloat.rat 100)

/-- Optioneer.py lines 218-223 `calculate_performance`: the three
windows; an empty series would raise IndexError at `iloc[-1]`
(modelled as `Option.none`). -/
def calculate_performance (closes : List ℚ) : Option (EFloat × EFloat × EFloat) :=
  if closes.isEmpty then Option.none
  else Option.some (perfN closes 7, perfN closes 30, perfN closes 60)

/-- Pandas `ewm(span=s, adjust=False).mean()`: y0 = x0 and
y_i = (1 - a) * y_(i-1) + a * x_i with a = 2 / (s + 1). -/
def ewm (span : ℕ) (xs : List ℚ) : List ℚ :=
  match xs with
  | [] => []
  | x :: rest =>
    rest.scanl (fun prev c =>
      (1 - 2 / ((span : ℚ) + 1)) * prev + (2 / ((span : ℚ) + 1)) * c) x

/-- Optioneer.py lines 229-234: MACD histogram at the latest bar
(12/26 EMA difference minus its 9-EMA signal line). -/
def macd_hist_last (closes : List ℚ) : ℚ :=
  let macd := List.zipWith (fun a b => a - b) (ewm 12 closes) (ewm 26 closes)
  let h := List.zipWith (fun a b => a - b) macd (ewm 9 macd)
  h.getD (h.length - 1) 0

/-- Optioneer.py lines 225-244 `calculate_technical_indicators`: the empty
history returns the empty dict `{}`; otherwise every key is populated from
the indicator math. -/
def calculate_technical_indicators (closes : List ℚ) : TechRecord :=
  if closes.isEmpty then
    ⟨Option.none, Option.none, Option.none, Option.none, Option.none, Option.none⟩
  else
    ⟨Option.some (closes.getD (closes.length - 1) 0),
     Option.some (pyvalOfE (calculate_rsi closes)),
     Option.some (PyVal.num (macd_hist_last closes)),
     Option.some (pyvalOfE (perfN closes 7)),
     Option.some (pyvalOfE (perfN closes 30)),
     Option.some (pyvalOfE (perfN closes 60))⟩

/-- The yfinance `info` dict as read by `get_fundamental_data` lines
146-151 through `.get(key, np.nan)`: an absent key is already folded to
`PyVal.nan`. -/
structure YahooBag where
  debtToEquity : PyVal
  currentRatio : PyVal
  freeCashFlow : PyVal
  roe : PyVal
deriving DecidableEq

/-- The dict returned by `fetch_fmp_ratios` or
`fetch_alpha_vantage_overview`; read through `.get(key)`, so an absent
key (including the whole-bag `{}` of the exception path) is
`PyVal.none`. -/
structure RatiosBag where
  debtToEquity : PyVal
  currentRatio : PyVal
  roe : PyVal
deriving DecidableEq

/-- One metric of the resolver loops of `get_fundamental_data` (lines
153-169): Yahoo value, then the FMP value if Yahoo's is missing, then the
Alpha Vantage value if still missing, then the "N/A" sentinel sweep. -/
def resolve3 (y s t : PyVal) : PyVal :=
  let a := if is_missing y && !(is_missing s) then s else y
  let b := if is_missing a && !(is_missing t) then t else a
  if is_missing b then PyVal.str "N/A" else b

/-- Free Cash Flow resolution (lines 158-160): Yahoo, then FMP key
metrics, then the "N/A" sweep; Alpha Vantage never supplies it. -/
def resolve2 (y s : PyVal) : PyVal :=
  let a := if is_missing y && !(is_missing s) then s else y
  if is_missing a then PyVal.str "N/A" else a

/-- Optioneer.py lines 143-170 `get_fundamental_data`, as a function of
the four provider payloads. Revenue Growth is not a key of this dict, so
a `.get` on the result yields `None`. -/
def get_fundamental_data (yahoo : YahooBag) (fmp : RatiosBag) (fmpKM : PyVal)
    (av : RatiosBag) : FundRecord :=
  ⟨resolve3 yahoo.debtToEquity fmp.debtToEquity av.debtToEquity,
   resolve3 yahoo.currentRatio fmp.currentRatio av.currentRatio,
   resolve2 yahoo.freeCashFlow fmpKM,
   PyVal.none,
   resolve3 yahoo.roe fmp.roe av.roe⟩

/-- The ROE entry built by `fetch_fmp_ratios` (Optioneer.py line 112 and
DataINgestor.py line 55): `latest.get('returnOnEquity') * 100 if
latest.get('returnOnEquity') else None`. The payload is the JSON number
when present; both an absent field and a falsy 0.0 give `None`. -/
def fmpROE (payload : Option ℚ) : PyVal :=
  match payload with
  | Option.none => PyVal.none
  | Option.some v => if v = 0 then PyVal.none else PyVal.num (v * 100)

/-- The ROE entry built by `get_yfinance_fundamentals` (DataIngestor.py
line 61): `info.get("returnOnEquity") * 100 if info.get("returnOnEquity")
else np.nan`. -/
def yfROE (payload : Option ℚ) : PyVal :=
  match payload with
  | Option.none => PyVal.nan
  | Option.some v => if v = 0 then PyVal.nan else PyVal.num (v * 100)

/-- The primary (Yahoo) ROE as read by `get_fundamental_data` line 150:
`yahoo_info.get("returnOnEquity", np.nan)` - the raw value, with no
normalization. -/
def yahooROE (payload : Option ℚ) : PyVal :=
  match payload with
  | Option.none => PyVal.nan
  | Option.some v => PyVal.num v

/-- The ROE entry built by `fetch_alpha_vantage_overview` (Optioneer.py
line 138): the parsed `ReturnOnEquityTTM` number, with no normalization;
the JSON string "None" gives `None`. -/
def avROE (payload : Option ℚ) : PyVal :=
  match payload with
  | Option.none => PyVal.none
  | Option.some v => PyVal.num v

/-- Outcome of the run-button analysis flow. -/
inductive RunOutcome where
  | done (fundScore techScore overall : ℚ) (rec : Recommendation)
  | scoreError (e : ScoreErr)
  | keyError (k : String)
deriving DecidableEq

/-- Optioneer.py lines 340-359, from the resolved price history onward:
technicals are computed (the empty dict for an empty history), then
`calculate_scores` runs unconditionally, then
`technicals["Current Price"]` is read for the recommendation - a raw
`[]` access raising KeyError when the key is absent. The merged
fundamentals record and thresholds arrive as inputs. -/
def runAnalysis (closes : List ℚ) (fund : FundRecord) (th : Thresholds) : RunOutcome :=
  let technicals := calculate_technical_indicators closes
  match calculate_scores fund technicals th with
  | Except.error e => RunOutcome.scoreError e
  | Except.ok (f, t, o) =>
    match technicals.currentPrice with
    | Option.none => RunOutcome.keyError "Current Price"
    | Option.some p => RunOutcome.done f t o (get_option_recommendation o p)

/-- The sidebar default thresholds (Optioneer.py lines 328-335):
D/E 0.5, CR 1.5, Revenue Growth 10, ROE 15, RSI band [40, 60]. -/
def defaultThresholds : Thresholds := ⟨1/2, 3/2, 10, 15, 40, 60⟩

/-- A malformed threshold configuration with the RSI lower bound above
the upper bound, otherwise the defaults. -/
def malformedTh : Thresholds := ⟨1/2, 3/2, 10, 15, 60, 40⟩

/-- Spec end-to-end scenario A fundamentals: D/E 0.4, CR 2.0, FCF 500,
ROE 20, Revenue Growth untracked (NaN). -/
def fundScenarioA : FundRecord :=
  ⟨PyVal.num (2/5), PyVal.num 2, PyVal.num 500, PyVal.nan, PyVal.num 20⟩

/-- A fundamentals record with every metric NaN (all unavailable). -/
def fundAllNaN : FundRecord :=
  ⟨PyVal.nan, PyVal.nan, PyVal.nan, PyVal.nan, PyVal.nan⟩

/-- The empty technicals dict `{}` returned for an empty price history:
every key absent. -/
def emptyTech : TechRecord :=
  ⟨Option.none, Option.none, Option.none, Option.none, Option.none, Option.none⟩

/-- A technicals record failing every criterion outright (RSI 35 against
the malformed band, negative MACD and performance values). -/
def techC9 : TechRecord :=
  ⟨Option.some 100, Option.some (PyVal.num 35), Option.some (PyVal.num (-1)),
   Option.some (PyVal.num (-50)), Option.some (PyVal.num (-50)),
   Option.some (PyVal.num (-50))⟩

/-- A monotonically rising 15-bar close series. -/
def c4closes : List ℚ := [1, 2, 3, 4, 5, 6, 7, 8, 9, 10, 11, 12, 13, 14, 15]

/-- A completely flat 15-bar close series (no loss and no gain). -/
def c4flat : List ℚ := [5, 5, 5, 5, 5, 5, 5, 5, 5, 5, 5, 5, 5, 5, 5]

/-- A short positive close series for the performance-window witness. -/
def l8 : List ℚ := [10, 11, 12]

/-- C6 witness bags: Yahoo supplies D/E only, FMP supplies D/E and
Current Ratio, Alpha Vantage supplies nothing. -/
def yW : YahooBag := ⟨PyVal.num (2/5), PyVal.nan, PyVal.nan, PyVal.nan⟩

/-- See `yW`. -/
def fmpW : RatiosBag := ⟨PyVal.num 2, PyVal.num 3, PyVal.none⟩

/-- An empty ratios bag (every metric missing). -/
def emptyRatios : RatiosBag := ⟨PyVal.none, PyVal.none, PyVal.none⟩

/-- A Yahoo bag whose only non-missing metric is an ROE fraction 0.15. -/
def yOnlyROE : YahooBag :=
  ⟨PyVal.nan, PyVal.nan, PyVal.nan, yahooROE (Option.some (3/20))⟩

/-- A Yahoo bag with every metric missing. -/
def yAllNaN : YahooBag := ⟨PyVal.nan, PyVal.nan, PyVal.nan, PyVal.nan⟩

/-- An FMP ratios bag supplying only an ROE fraction 0.15 (normalized by
the fetcher). -/
def fmpOnlyROE : RatiosBag := ⟨PyVal.none, PyVal.none, fmpROE (Option.some (3/20))⟩

/-- An Alpha Vantage bag supplying only an ROE fraction 0.15 (passed
through unnormalized by the fetcher). -/
def avOnlyROE : RatiosBag := ⟨PyVal.none, PyVal.none, avROE (Option.some (3/20))⟩

end Optioneering

namespace Optioneering

/-- Helper: when the primary (Yahoo) value is present, the three-provider
resolution keeps it. -/
lemma resolve3_primary (y s t : PyVal) (h : is_missing y = false) :
    resolve3 y s t = y := by
  simp [resolve3, h]

/-- Helper: when the primary value is missing and the secondary (FMP)
value is present, the resolution takes the secondary value. -/
lemma resolve3_secondary (y s t : PyVal) (hy : is_missing y = true)
    (hs : is_missing s = false) : resolve3 y s t = s := by
  simp [resolve3, hy, hs]

/-- Helper: provided no provider supplies the literal sentinel string
(providers return numbers or nulls), the resolution yields the "N/A"
sentinel exactly when all three provider values are missing. -/
lemma resolve3_na_iff (y s t : PyVal) (hy : y ≠ PyVal.str "N/A")
    (hs : s ≠ PyVal.str "N/A") (ht : t ≠ PyVal.str "N/A") :
    (resolve3 y s t = PyVal.str "N/A" ↔
      is_missing y = true ∧ is_missing s = true ∧ is_missing t = true) := by
  cases hym : is_missing y <;> cases hsm : is_missing s <;> cases htm : is_missing t <;>
    simp [resolve3, hym, hsm, htm, hy, hs, ht]

/-- Helper: two-provider analogue of `resolve3_primary` for Free Cash
Flow. -/
lemma resolve2_primary (y s : PyVal) (h : is_missing y = false) :
    resolve2 y s = y := by
  simp [resolve2, h]

/-- Helper: two-provider analogue of `resolve3_secondary`. -/
lemma resolve2_secondary (y s : PyVal) (hy : is_missing y = true)
    (hs : is_missing s = false) : resolve2 y s = s := by
  simp [resolve2, hy, hs]

/-- Helper: two-provider analogue of `resolve3_na_iff`. -/
lemma resolve2_na_iff (y s : PyVal) (hy : y ≠ PyVal.str "N/A")
    (hs : s ≠ PyVal.str "N/A") :
    (resolve2 y s = PyVal.str "N/A" ↔
      is_missing y = true ∧ is_missing s = true) := by
  cases hym : is_missing y <;> cases hsm : is_missing s <;>
    simp [resolve2, hym, hsm, hy, hs]

/-- C1 counterexample: on the spec's own end-to-end scenario A input (all
four tracked fundamental criteria pass their thresholds, Revenue Growth
untracked), `calculate_scores` yields a fundamental subscore of 24/5 = 4.8,
not the claimed 6.0: line 290 always divides the raw points by the
five-criterion maximum of 50. -/
theorem c1_counterexample :
    fund_score fundScenarioA defaultThresholds = Except.ok (24 / 5) ∧
    (24 / 5 : ℚ) ≠ 6 := by
  constructor
  · norm_num [fund_score, fund_points, de_points, cr_points, fcf_points, rg_points,
      roe_points, exAdd, pyLE, pyGE, pyGT, is_missing, fundScenarioA, defaultThresholds]
  · norm_num

/-- C1 amended: for every FundamentalsRecord in which all four tracked
criteria pass their full thresholds and Revenue Growth is not tracked
(missing), the fundamental subscore is exactly 4.8 = (40/50) * 10 * 0.6;
the 6.0 maximum is reachable only when Revenue Growth is tracked and
passes as well. -/
theorem c1_amended (fund : FundRecord) (th : Thresholds) (d c f r : ℚ)
    (hd : fund.debtToEquity = PyVal.num d) (hd2 : d ≤ th.debtToEquity)
    (hc : fund.currentRatio = PyVal.num c) (hc2 : th.currentRatio ≤ c)
    (hf : fund.freeCashFlow = PyVal.num f) (hf2 : 0 < f)
    (hr : fund.roe = PyVal.num r) (hr2 : th.roe ≤ r)
    (hrg : is_missing fund.revenueGrowth = true) :
    fund_score fund th = Except.ok (24 / 5) := by
  have h1 : de_points fund th = Except.ok 10 := by
    simp [de_points, hd, is_missing, pyLE, hd2]
  have h2 : cr_points fund th = Except.ok 10 := by
    simp [cr_points, hc, is_missing, pyGE, hc2]
  have h3 : fcf_points fund = Except.ok 10 := by
    simp [fcf_points, hf, is_missing, pyGT, hf2]
  have h4 : rg_points fund th = Except.ok 0 := by
    simp [rg_points, hrg]
  have h5 : roe_points fund th = Except.ok 10 := by
    simp [roe_points, hr, is_missing, pyGE, hr2]
  rw [fund_score, fund_points, h1, h2, h3, h4, h5]
  norm_num [exAdd]

/-- C1 witness: the amended theorem applied to the concrete scenario A
record and the default thresholds. -/
theorem c1_witness : fund_score fundScenarioA defaultThresholds = Except.ok (24 / 5) :=
  c1_amended fundScenarioA defaultThresholds (2/5) 2 500 20 rfl
    (by norm_num [defaultThresholds]) rfl (by norm_num [defaultThresholds]) rfl
    (by norm_num) rfl (by norm_num [defaultThresholds]) rfl

/-- C2: a TechnicalsRecord with every metric unavailable (the empty dict
produced for an empty price history) is scored 6/5 = 1.2 rather than 0
under the default thresholds: `tech.get(key, 0)` defaults each missing
metric to 0, and 0 falls in the [-2, 2] half-pass band of all three
performance criteria, awarding 5 points each. This refutes the claim that
an unavailable metric never contributes points. -/
theorem c2_missing_metric_scores_points :
    tech_score emptyTech defaultThresholds = Except.ok (6 / 5) ∧ (6 / 5 : ℚ) ≠ 0 := by
  constructor
  · norm_num [tech_score, tech_points, rsi_points, rsi_half, rsi_half2, macd_points,
      perf_points, exAdd, pyLE, pyGT, pyLT, numLE, numLT, techGet, emptyTech,
      defaultThresholds]
  · norm_num

/-- C3: with an empty price history from both sources, the analysis flow
does not terminate with an insufficient-data outcome: `calculate_scores`
runs on the empty technicals dict and produces a fabricated score
(0, 1.2, 1.2), and the run then dies with a KeyError reading
`technicals["Current Price"]` - there is no early insufficient-data
return in Optioneer.py's flow. -/
theorem c3_empty_history_scores_then_keyerror :
    runAnalysis [] fundAllNaN defaultThresholds = RunOutcome.keyError "Current Price" ∧
    calculate_scores fundAllNaN (calculate_technical_indicators []) defaultThresholds
      = Except.ok (0, 6 / 5, 6 / 5) := by
  have hscores : calculate_scores fundAllNaN (calculate_technical_indicators [])
      defaultThresholds = Except.ok (0, 6 / 5, 6 / 5) := by
    norm_num [calculate_scores, calculate_technical_indicators, fund_score, tech_score,
      fund_points, tech_points, de_points, cr_points, fcf_points, rg_points, roe_points,
      rsi_points, rsi_half, rsi_half2, macd_points, perf_points, exAdd, pyLE, pyGE,
      pyGT, pyLT, numLE, numLT, techGet, is_missing, fundAllNaN, defaultThresholds]
  refine ⟨?_, hscores⟩
  rw [runAnalysis, hscores]
  rfl

/-- C4 counterexample: on a monotonically rising 15-bar series the RSI is
the definite number 100 (pandas evaluates avg_gain / 0 to +infinity and
100 - 100/(1 + inf) to 100.0), not an unavailable sentinel: the code has
no zero-average-loss guard. -/
theorem c4_counterexample :
    calculate_rsi c4closes = EFloat.rat 100 ∧ EFloat.rat 100 ≠ EFloat.nan := by
  constructor
  · norm_num [calculate_rsi, c4closes, last14, diffList, ediv, eadd, esub, eneg, max_def]
  · simp

/-- C4 amended: for every price series of at least 15 closes whose
trailing 14 close-to-close differences contain no loss (all are at least
zero), `calculate_rsi` never returns an unavailable sentinel: when at
least one difference is a strict gain (e.g. a monotonically rising
series) it returns exactly the number 100 (avg_gain / 0 = +inf and
100 - 100/(1 + inf) = 100), and when the window is completely flat it
returns the NaN artifact of the 0/0 division - in both cases a
numeric-library default, with no zero-average-loss guard in the code. -/
theorem c4_amended (closes : List ℚ) (hlen : 15 ≤ closes.length)
    (hnoloss : ∀ d ∈ last14 (diffList closes), 0 ≤ d) :
    ((∃ d ∈ last14 (diffList closes), 0 < d) →
      calculate_rsi closes = EFloat.rat 100) ∧
    ((∀ d ∈ last14 (diffList closes), d = 0) →
      calculate_rsi closes = EFloat.nan) := by
  have hT : ((last14 (diffList closes)).map (fun d => max (-d) 0)).sum = 0 := by
    apply List.sum_eq_zero
    intro x hx
    obtain ⟨d, hd, rfl⟩ := List.mem_map.mp hx
    have hd0 := hnoloss d hd
    rw [max_eq_right (by linarith : -d ≤ (0:ℚ))]
  constructor
  · rintro ⟨d, hd, hdpos⟩
    have hS : 0 < ((last14 (diffList closes)).map (fun d => max d 0)).sum := by
      have hmem : max d 0 ∈ (last14 (diffList closes)).map (fun d => max d 0) :=
        List.mem_map.mpr ⟨d, hd, rfl⟩
      have hle : max d 0 ≤ ((last14 (diffList closes)).map (fun d => max d 0)).sum := by
        apply List.single_le_sum ?_ _ hmem
        intro x hx
        obtain ⟨e, he, rfl⟩ := List.mem_map.mp hx
        exact le_max_right e 0
      calc (0:ℚ) < d := hdpos
        _ ≤ max d 0 := le_max_left d 0
        _ ≤ _ := hle
    have hq : 0 < ((last14 (diffList closes)).map (fun d => max d 0)).sum / 14 := by
      positivity
    rw [calculate_rsi, if_neg (by omega : ¬ closes.length < 15)]
    simp [hT, ediv, eadd, esub, eneg, hq]
  · intro hflat
    have hS0 : ((last14 (diffList closes)).map (fun d => max d 0)).sum = 0 := by
      apply List.sum_eq_zero
      intro x hx
      obtain ⟨d, hd, rfl⟩ := List.mem_map.mp hx
      rw [hflat d hd]
      simp
    rw [calculate_rsi, if_neg (by omega : ¬ closes.length < 15)]
    simp [hT, hS0, ediv, eadd, esub, eneg]

/-- C4 witness: the amended theorem applied to both concrete inputs -
the rising series (RSI exactly 100) and the flat series (RSI NaN). -/
theorem c4_witness :
    calculate_rsi c4closes = EFloat.rat 100 ∧ calculate_rsi c4flat = EFloat.nan :=
  ⟨(c4_amended c4closes (by norm_num [c4closes])
      (by norm_num [c4closes, last14, diffList])).1
      ⟨1, by norm_num [c4closes, last14, diffList], by norm_num⟩,
   (c4_amended c4flat (by norm_num [c4flat])
      (by norm_num [c4flat, last14, diffList])).2
      (by norm_num [c4flat, last14, diffList])⟩

/-- C5: the fraction-to-percentage ROE normalization is not applied
identically across the three ranked providers: a provider ROE of 0.15
reaches the resolved record as 0.15 through the Yahoo primary (line 150,
no scaling) and through the Alpha Vantage tertiary (line 138, no
scaling), but as 15.0 through the FMP secondary (line 112, times 100). -/
theorem c5_roe_normalization_inconsistent :
    (get_fundamental_data yOnlyROE emptyRatios PyVal.none emptyRatios).roe
      = PyVal.num (3 / 20) ∧
    (get_fundamental_data yAllNaN fmpOnlyROE PyVal.none emptyRatios).roe
      = PyVal.num 15 ∧
    (get_fundamental_data yAllNaN emptyRatios PyVal.none avOnlyROE).roe
      = PyVal.num (3 / 20) ∧
    (3 / 20 : ℚ) ≠ 15 := by
  refine ⟨?_, ?_, ?_, by norm_num⟩ <;>
    norm_num [get_fundamental_data, resolve3, yOnlyROE, yAllNaN, fmpOnlyROE,
      avOnlyROE, emptyRatios, yahooROE, fmpROE, avROE, is_missing]

/-- C6: per-metric ranked-provider precedence of `get_fundamental_data`.
For each of the four tracked metrics independently: a present primary
(Yahoo) value is kept verbatim, whatever it is; when the primary is
missing, a present secondary (FMP) value is taken; and - provided no
provider supplies the literal "N/A" string, which providers never do -
the output is the "N/A" sentinel exactly when every ranked provider is
missing that metric (Free Cash Flow has only two ranked providers). -/
theorem c6_resolver_precedence (y : YahooBag) (fmp : RatiosBag) (km : PyVal)
    (av : RatiosBag) :
    ((is_missing y.debtToEquity = false →
        (get_fundamental_data y fmp km av).debtToEquity = y.debtToEquity) ∧
      (is_missing y.debtToEquity = true → is_missing fmp.debtToEquity = false →
        (get_fundamental_data y fmp km av).debtToEquity = fmp.debtToEquity) ∧
      (y.debtToEquity ≠ PyVal.str "N/A" → fmp.debtToEquity ≠ PyVal.str "N/A" →
        av.debtToEquity ≠ PyVal.str "N/A" →
        ((get_fundamental_data y fmp km av).debtToEquity = PyVal.str "N/A" ↔
          is_missing y.debtToEquity = true ∧ is_missing fmp.debtToEquity = true ∧
            is_missing av.debtToEquity = true))) ∧
    ((is_missing y.currentRatio = false →
        (get_fundamental_data y fmp km av).currentRatio = y.currentRatio) ∧
      (is_missing y.currentRatio = true → is_missing fmp.currentRatio = false →
        (get_fundamental_data y fmp km av).currentRatio = fmp.currentRatio) ∧
      (y.currentRatio ≠ PyVal.str "N/A" → fmp.currentRatio ≠ PyVal.str "N/A" →
        av.currentRatio ≠ PyVal.str "N/A" →
        ((get_fundamental_data y fmp km av).currentRatio = PyVal.str "N/A" ↔
          is_missing y.currentRatio = true ∧ is_missing fmp.currentRatio = true ∧
            is_missing av.currentRatio = true))) ∧
    ((is_missing y.roe = false →
        (get_fundamental_data y fmp km av).roe = y.roe) ∧
      (is_missing y.roe = true → is_missing fmp.roe = false →
        (get_fundamental_data y fmp km av).roe = fmp.roe) ∧
      (y.roe ≠ PyVal.str "N/A" → fmp.roe ≠ PyVal.str "N/A" →
        av.roe ≠ PyVal.str "N/A" →
        ((get_fundamental_data y fmp km av).roe = PyVal.str "N/A" ↔
          is_missing y.roe = true ∧ is_missing fmp.roe = true ∧
            is_missing av.roe = true))) ∧
    ((is_missing y.freeCashFlow = false →
        (get_fundamental_data y fmp km av).freeCashFlow = y.freeCashFlow) ∧
      (is_missing y.freeCashFlow = true → is_missing km = false →
        (get_fundamental_data y fmp km av).freeCashFlow = km) ∧
      (y.freeCashFlow ≠ PyVal.str "N/A" → km ≠ PyVal.str "N/A" →
        ((get_fundamental_data y fmp km av).freeCashFlow = PyVal.str "N/A" ↔
          is_missing y.freeCashFlow = true ∧ is_missing km = true))) := by
  refine ⟨⟨?_, ?_, ?_⟩, ⟨?_, ?_, ?_⟩, ⟨?_, ?_, ?_⟩, ⟨?_, ?_, ?_⟩⟩
  · exact fun h => resolve3_primary _ _ _ h
  · exact fun hy hs => resolve3_secondary _ _ _ hy hs
  · exact fun h1 h2 h3 => resolve3_na_iff _ _ _ h1 h2 h3
  · exact fun h => resolve3_primary _ _ _ h
  · exact fun hy hs => resolve3_secondary _ _ _ hy hs
  · exact fun h1 h2 h3 => resolve3_na_iff _ _ _ h1 h2 h3
  · exact fun h => resolve3_primary _ _ _ h
  · exact fun hy hs => resolve3_secondary _ _ _ hy hs
  · exact fun h1 h2 h3 => resolve3_na_iff _ _ _ h1 h2 h3
  · exact fun h => resolve2_primary _ _ h
  · exact fun hy hs => resolve2_secondary _ _ hy hs
  · exact fun h1 h2 => resolve2_na_iff _ _ h1 h2

/-- C6 witness: on concrete bags, Yahoo's unfavorable D/E 0.4 is kept,
the missing Yahoo Current Ratio falls back to FMP's 3, and ROE, missing
everywhere, resolves to the sentinel. -/
theorem c6_witness :
    (get_fundamental_data yW fmpW PyVal.none emptyRatios).debtToEquity
      = PyVal.num (2 / 5) ∧
    (get_fundamental_data yW fmpW PyVal.none emptyRatios).currentRatio
      = PyVal.num 3 ∧
    (is_missing yW.roe = true ∧ is_missing fmpW.roe = true ∧
      is_missing emptyRatios.roe = true) := by
  have h := c6_resolver_precedence yW fmpW PyVal.none emptyRatios
  refine ⟨h.1.1 (by norm_num [yW, is_missing]), ?_, ?_⟩
  · exact h.2.1.2.1 (by norm_num [yW, is_missing]) (by norm_num [fmpW, is_missing])
  · exact (h.2.2.1.2.2 (by decide) (by decide) (by decide)).mp (by decide)

/-- C7: the recommendation tiers of `get_option_recommendation` are
exactly as claimed, with inclusive lower bounds: composite at least 8
gives 60 days / delta 50 / at-the-money; at least 6 but below 8 gives
45 days / delta 35 / 0.97 of price; below 6 gives 30 days / delta 20 /
0.90 of price. -/
theorem c7_recommendation_tiers (s p : ℚ) :
    (8 ≤ s → get_option_recommendation s p = ⟨60, 50, p⟩) ∧
    (6 ≤ s → s < 8 → get_option_recommendation s p = ⟨45, 35, p * (97 / 100)⟩) ∧
    (s < 6 → get_option_recommendation s p = ⟨30, 20, p * (9 / 10)⟩) := by
  refine ⟨fun h => ?_, fun h1 h2 => ?_, fun h => ?_⟩
  · rw [get_option_recommendation, if_pos h]
  · rw [get_option_recommendation, if_neg (by linarith), if_pos h1]
  · rw [get_option_recommendation, if_neg (by linarith), if_neg (by linarith)]

/-- C7 witness: the boundary cases - exactly 8.0 maps to the top tier,
7.999 to the middle tier, 5 to the bottom tier. -/
theorem c7_witness :
    get_option_recommendation 8 100 = ⟨60, 50, 100⟩ ∧
    get_option_recommendation (7999 / 1000) 200 = ⟨45, 35, 200 * (97 / 100)⟩ ∧
    get_option_recommendation 5 100 = ⟨30, 20, 100 * (9 / 10)⟩ :=
  ⟨(c7_recommendation_tiers 8 100).1 (by norm_num),
   (c7_recommendation_tiers (7999 / 1000) 200).2.1 (by norm_num) (by norm_num),
   (c7_recommendation_tiers 5 100).2.2 (by norm_num)⟩

/-- C8 counterexample: on the non-empty series [0, 1] every performance
window divides by the zero reference close and returns +infinity, not a
finite value (numpy float division, no exception). -/
theorem c8_counterexample :
    calculate_performance [0, 1] = Option.some (EFloat.inf, EFloat.inf, EFloat.inf) := by
  norm_num [calculate_performance, perfN, ediv, esub, eadd, eneg, emul]

/-- C8 amended: for every non-empty price series of positive closes and
every positive lookback n (so in particular 7, 30 and 60), the positional
read `iloc[-min(n, len)]` is in bounds (never an index failure), a series
shorter than n uses the earliest bar (position 0), and the result is the
finite percentage change from that reference close to the latest close.
Finiteness needs the nonzero reference close; a zero close yields an
infinity (see the counterexample). -/
theorem c8_amended (closes : List ℚ) (hne : closes ≠ [])
    (hpos : ∀ c ∈ closes, 0 < c) :
    calculate_performance closes
      = Option.some (perfN closes 7, perfN closes 30, perfN closes 60) ∧
    ∀ n : ℕ, 0 < n →
      closes.length - min n closes.length < closes.length ∧
      (closes.length < n → closes.length - min n closes.length = 0) ∧
      ∃ q : ℚ, perfN closes n = EFloat.rat q ∧
        q = (closes.getD (closes.length - 1) 0
          / closes.getD (closes.length - min n closes.length) 0 - 1) * 100 := by
  have hlen : 0 < closes.length := List.length_pos.mpr hne
  constructor
  · cases closes with
    | nil => exact absurd rfl hne
    | cons a l => rfl
  · intro n hn
    have hmin1 : 1 ≤ min n closes.length := le_min hn hlen
    have hminle : min n closes.length ≤ closes.length := min_le_right _ _
    have hidx : closes.length - min n closes.length < closes.length := by omega
    refine ⟨hidx, fun h => by rw [min_eq_right h.le]; omega, ?_⟩
    have hrefmem : closes.getD (closes.length - min n closes.length) 0 ∈ closes := by
      rw [List.getD_eq_getElem _ _ hidx]
      exact List.getElem_mem _
    have href : 0 < closes.getD (closes.length - min n closes.length) 0 := hpos _ hrefmem
    refine ⟨_, ?_, rfl⟩
    have hne2 := href.ne'
    simp only [perfN]
    set latest := closes.getD (closes.length - 1) 0
    set ref := closes.getD (closes.length - min n closes.length) 0
    simp [ediv, esub, eadd, eneg, emul, hne2, sub_eq_add_neg]

/-- C8 witness: the amended theorem applied to the three-bar positive
series: the 60-day window shortens to the earliest bar and returns the
finite value 20. -/
theorem c8_witness :
    calculate_performance l8 = Option.some (perfN l8 7, perfN l8 30, perfN l8 60) ∧
    l8.length - min 60 l8.length < l8.length ∧
    l8.length - min 60 l8.length = 0 ∧
    perfN l8 60 = EFloat.rat 20 := by
  have h := c8_amended l8 (by decide) (by norm_num [l8])
  have h60 := h.2 60 (by norm_num)
  refine ⟨h.1, h60.1, h60.2.1 (by norm_num [l8]), ?_⟩
  obtain ⟨q, hq, hq2⟩ := h60.2.2
  rw [hq, hq2]
  norm_num [l8]

/-- C9: a threshold configuration with the RSI lower bound (60) above the
upper bound (40) is not rejected: no validation exists anywhere between
the sidebar inputs and the scoring engine, and `calculate_scores` runs
normally on it, even awarding the 30-to-40 half-band points for an RSI of
35, returning the ordinary score triple (4.8, 0.4, 5.2). -/
theorem c9_malformed_band_still_scored :
    malformedTh.rsiHigh < malformedTh.rsiLow ∧
    calculate_scores fundScenarioA techC9 malformedTh = Except.ok (24/5, 2/5, 26/5) := by
  constructor
  · norm_num [malformedTh]
  · norm_num [calculate_scores, fund_score, tech_score, fund_points, tech_points,
      de_points, cr_points, fcf_points, rg_points, roe_points, rsi_points, rsi_half,
      rsi_half2, macd_points, perf_points, exAdd, pyLE, pyGE, pyGT, pyLT, numLE, numLT,
      techGet, is_missing, fundScenarioA, techC9, malformedTh]

/-- C10: the truthiness guard of the ROE fetchers maps a payload of
exactly 0.0 and an absent payload to one and the same missing marker
(`None` in fetch_fmp_ratios, NaN in get_yfinance_fundamentals), so the
two are indistinguishable downstream: the resolver output is identical
whichever of the two the FMP payload was. -/
theorem c10_zero_roe_indistinguishable :
    (∀ v : Option ℚ, v = Option.some 0 ∨ v = Option.none →
      fmpROE v = PyVal.none ∧ yfROE v = PyVal.nan ∧
      is_missing (fmpROE v) = true ∧ is_missing (yfROE v) = true) ∧
    fmpROE (Option.some 0) = fmpROE Option.none ∧
    yfROE (Option.some 0) = yfROE Option.none ∧
    (∀ (y : YahooBag) (deV crV km : PyVal) (av : RatiosBag),
      get_fundamental_data y ⟨deV, crV, fmpROE (Option.some 0)⟩ km av =
        get_fundamental_data y ⟨deV, crV, fmpROE Option.none⟩ km av) := by
  refine ⟨?_, by norm_num [fmpROE], by norm_num [yfROE], ?_⟩
  · rintro v (rfl | rfl) <;> norm_num [fmpROE, yfROE, is_missing]
  · intro y deV crV km av
    norm_num [get_fundamental_data, fmpROE]

/-- C10 witness: the theorem applied to the concrete zero payload. -/
theorem c10_witness :
    fmpROE (Option.some 0) = PyVal.none ∧ yfROE (Option.some 0) = PyVal.nan :=
  ⟨(c10_zero_roe_indistinguishable.1 (Option.some 0) (Or.inl rfl)).1,
   (c10_zero_roe_indistinguishable.1 (Option.some 0) (Or.inl rfl)).2.1⟩

end Optioneering
